import Mathlib

/-!
Shallow embedding of `src/App.tsx` of the agentic-mesh-simulation repository.

The program is a React component.  Its logic consists of:
  * a fixed list of five `Agent` records plus a capped log list held in
    component state (`useState`),
  * `addLog` (prepend a log entry, keep the 8 most recent),
  * `updateAgentStatus` (flip one agent's status by id),
  * `resetSimulation` (restore the five-agent template, clear logs, emit one
    "System" log entry),
  * `startSimulation` (busy guard, synchronous setup, a remote plan call,
    mapping the plan into agent slots 1-3, and five `setTimeout` callbacks at
    fixed offsets that advance the stage),
  * `callGeminiOrchestrator` / `callGeminiSummary` (remote calls whose
    failures are caught and replaced by hardcoded fallbacks).

React state updates (`setX(prev => ...)`) become pure record updates on an
`AppState`.  The browser environment (clock, random log ids, the network) is
passed in explicitly: each `addLog` call site receives a `LogMeta` (the
timestamp string and the numeric id the browser would produce), and each
remote call receives a `FetchResult` describing what the network returned.
`setTimeout` becomes a pending-timer list on a `Sys` record, with an explicit
event step relation (`stepSys`): firing a timer removes it from the list and
runs its callback; `resetSimulation` does not touch the list, exactly as the
source never calls `clearTimeout`.
-/

/-- Embeds `type AgentType` (App.tsx:21): Orchestrator, Specialist or Worker. -/
inductive AgentType where
  | Orchestrator
  | Specialist
  | Worker
deriving DecidableEq, Repr

/-- Embeds `type AgentStatus` (App.tsx:22): idle, working, communicating or success. -/
inductive AgentStatus where
  | idle
  | working
  | communicating
  | success
deriving DecidableEq, Repr

/-- Embeds `interface Agent` (App.tsx:24-33).  The numeric coordinates are integers:
every value the program ever stores in them is one of the constants computed
from `CANVAS_WIDTH`/`CANVAS_HEIGHT`. -/
structure Agent where
  id : String
  name : String
  type : AgentType
  x : Int
  y : Int
  status : AgentStatus
  specialty : String
  currentTask : Option String
deriving DecidableEq, Repr

/-- Embeds `interface LogEntry` (App.tsx:35-40).  The source id is
`Date.now() + Math.random()`, a real number; no logic ever inspects it, so it
is embedded as a `Nat` supplied by the environment. -/
structure LogEntry where
  id : Nat
  source : String
  message : String
  timestamp : String
deriving DecidableEq, Repr

/-- The values the browser produces inside `addLog` (App.tsx:161-164): the
formatted time string and the fresh unique id. -/
structure LogMeta where
  id : Nat
  timestamp : String
deriving DecidableEq, Repr

/-- One `{ name, specialty, task }` record of a plan (App.tsx:55, 84-86). -/
structure PlanAgent where
  name : String
  specialty : String
  task : String
deriving DecidableEq, Repr

/-- The `{ agents: [...] }` value returned by `callGeminiOrchestrator`
(App.tsx:78, 82-88).  The source performs no shape validation on a parsed
response, so the list may have any length. -/
structure OrchestratorPlan where
  agents : List PlanAgent
deriving DecidableEq, Repr

/-- The component state relevant to the logic (App.tsx:138-146).
`selectedAgent`, `userMission` and `isGeneratingReport` drive only markup or
are passed explicitly as parameters, and are omitted. -/
structure AppState where
  agents : List Agent
  logs : List LogEntry
  simulationStep : Nat
  isSimulating : Bool
  isOrchestrating : Bool
  missionReport : Option String
deriving DecidableEq, Repr

/-- Layout constants (App.tsx:149-152): `CENTER_X = 800 / 2`, `CENTER_Y = 500 / 2`. -/
def CENTER_X : Int := 400

def CENTER_Y : Int := 250

/-- Embeds `addLog` (App.tsx:160-166): prepend the new entry and keep the first 8
(`[entry, ...prev].slice(0, 8)`).  The browser-produced timestamp and id
arrive via `meta`. -/
def addLog (meta : LogMeta) (source message : String) (logs : List LogEntry) :
    List LogEntry :=
  ({ id := meta.id, source := source, message := message,
     timestamp := meta.timestamp } :: logs).take 8

/-- Embeds `updateAgentStatus` (App.tsx:255-257):
`prev.map(a => a.id === id ? { ...a, status } : a)`. -/
def updateAgentStatus (id : String) (status : AgentStatus)
    (agents : List Agent) : List Agent :=
  agents.map fun a => if a.id = id then { a with status := status } else a

/-- The five-agent template built inside `resetSimulation` (App.tsx:260-266). -/
def initialAgents : List Agent :=
  [ { id := "1", name := "Orchestrator", type := .Orchestrator,
      x := CENTER_X, y := CENTER_Y, status := .idle,
      specialty := "Coordination", currentTask := some "Awaiting Mission" },
    { id := "2", name := "Specialist A", type := .Specialist,
      x := CENTER_X - 100, y := CENTER_Y - 80, status := .idle,
      specialty := "Pending...", currentTask := some "Standby" },
    { id := "3", name := "Specialist B", type := .Specialist,
      x := CENTER_X + 100, y := CENTER_Y - 80, status := .idle,
      specialty := "Pending...", currentTask := some "Standby" },
    { id := "4", name := "Worker A", type := .Worker,
      x := CENTER_X - 120, y := CENTER_Y + 60, status := .idle,
      specialty := "Pending...", currentTask := some "Standby" },
    { id := "5", name := "Support Bot", type := .Worker,
      x := CENTER_X + 120, y := CENTER_Y + 60, status := .idle,
      specialty := "Utilities", currentTask := some "Standby" } ]

/-- Embeds `resetSimulation` (App.tsx:259-272): restore the template, stage 0, clear
the logs and the report, then `addLog('System', 'Agentic Mesh Online. Enter a
mission to begin.')` against the just-cleared log list.  The two busy flags
are NOT touched, and no scheduled timer is cancelled. -/
def resetSimulation (meta : LogMeta) (st : AppState) : AppState :=
  { st with
    agents := initialAgents
    simulationStep := 0
    logs := addLog meta "System" "Agentic Mesh Online. Enter a mission to begin." []
    missionReport := none }

/-! ### Remote calls

`fetch` and the subsequent body processing are modelled by a `FetchResult`:
either the request threw (network error), or a response arrived with an
HTTP-success bit (`response.ok`) and a payload.  The payload already reflects
the outcome of the body processing chain (`response.json()` plus the nested
field accesses / second `JSON.parse`): `none` means some step of that chain
threw, `some v` means it produced `v`.  Every `throw` in the source lands in
the surrounding `catch`. -/

/-- What the network produced for one call. -/
inductive FetchResult (α : Type) where
  | networkError : FetchResult α
  | response (ok : Bool) (payload : α) : FetchResult α
deriving DecidableEq, Repr

/-- The hardcoded fallback plan of `callGeminiOrchestrator` (App.tsx:82-88). -/
def fallbackPlan : OrchestratorPlan :=
  { agents :=
      [ { name := "Logic Bot", specialty := "Planning",
          task := "Analyzing requirements" },
        { name := "Resource Bot", specialty := "Logistics",
          task := "Gathering resources" },
        { name := "Review Bot", specialty := "Quality Control",
          task := "Verifying output" } ] }

/-- Embeds `callGeminiOrchestrator` (App.tsx:47-90).  Inside the `try`:
`if (!apiKey) throw`, then the fetch (a network error throws), then
`if (!response.ok) throw`, then
`JSON.parse(data.candidates[0].content.parts[0].text)` (payload `none` when
that chain throws).  The `catch` returns `fallbackPlan`.  A successfully
parsed value is returned as-is, with no shape validation. -/
def callGeminiOrchestrator (apiKey : String)
    (fetch : FetchResult (Option OrchestratorPlan)) : OrchestratorPlan :=
  if apiKey = "" then fallbackPlan
  else
    match fetch with
    | .networkError => fallbackPlan
    | .response ok payload =>
        if ok then
          match payload with
          | some plan => plan
          | none => fallbackPlan
        else fallbackPlan

/-- The hardcoded fallback sentence of `callGeminiSummary` (App.tsx:116). -/
def fallbackSummary : String :=
  "Mission completed successfully. Agents collaborated to fulfill the user request."

/-- Embeds `callGeminiSummary` (App.tsx:92-118).  The logs only shape the request
prompt, never the returned value, so they do not appear here.  Unlike the
plan call there is NO `response.ok` check: whatever response arrives, the
body chain `data.candidates[0].content.parts[0].text` is read (payload `none`
when it throws) and returned verbatim; only a thrown error reaches the
`catch` and yields `fallbackSummary`. -/
def callGeminiSummary (apiKey : String)
    (fetch : FetchResult (Option String)) : String :=
  if apiKey = "" then fallbackSummary
  else
    match fetch with
    | .networkError => fallbackSummary
    | .response _ payload =>
        match payload with
        | some text => text
        | none => fallbackSummary

/-! ### The plan-to-agents mapping inside `startSimulation` -/

/-- One `newAgents[i] = { ...newAgents[i], name, specialty, currentTask }`
assignment (App.tsx:190, 194, 198).  Out-of-range indices never occur in the
program: the agent list always holds five records when `startSimulation`
runs. -/
def updatePlanSlot (agents : List Agent) (idx : Nat) (p : PlanAgent) :
    List Agent :=
  match agents[idx]? with
  | some a =>
      agents.set idx
        { a with name := p.name, specialty := p.specialty,
                 currentTask := some p.task }
  | none => agents

/-- The `setAgents` updater of App.tsx:186-201: slots 1, 2, 3 (agents with
ids "2", "3", "4") are overwritten from `plan.agents[0..2]`, each guarded by
`if (orchestratorPlan.agents[i])`. -/
def applyPlan (plan : OrchestratorPlan) (agents : List Agent) : List Agent :=
  let n1 := match plan.agents[0]? with
    | some p => updatePlanSlot agents 1 p
    | none => agents
  let n2 := match plan.agents[1]? with
    | some p => updatePlanSlot n1 2 p
    | none => n1
  match plan.agents[2]? with
  | some p => updatePlanSlot n2 3 p
  | none => n2

/-! ### The scripted timeline -/

/-- The five `setTimeout` callbacks registered by `startSimulation`
(App.tsx:208-245).  Each closure captures the resolved `orchestratorPlan`;
stages 4 and 6 never read it. -/
inductive Callback where
  | stage2 (plan : OrchestratorPlan)
  | stage3 (plan : OrchestratorPlan)
  | stage4
  | stage5 (plan : OrchestratorPlan)
  | stage6
deriving DecidableEq, Repr

/-- Render of `orchestratorPlan.agents.map(a => a.name).join(', ')`
(App.tsx:211). -/
def joinNames (plan : OrchestratorPlan) : String :=
  String.intercalate ", " (plan.agents.map PlanAgent.name)

/-- Body of one timer callback (App.tsx:208-245).  `m1`/`m2` are the
browser-produced log metadata for the up-to-two `addLog` calls in a callback.
Where the source would throw a `TypeError` on a too-short plan
(`orchestratorPlan.agents[i].specialty` with `agents[i]` undefined, stages 3
and 5), the mutations already performed stand and the remaining statements of
the callback are skipped, exactly as an exception escaping a `setTimeout`
callback behaves. -/
def runCallback (cb : Callback) (m1 m2 : LogMeta) (st : AppState) : AppState :=
  match cb with
  | .stage2 plan =>
      { st with
        simulationStep := 2
        agents := updateAgentStatus "1" .working st.agents
        logs := addLog m1 "Orchestrator LLM"
          ("Decomposed mission. Assigning roles: " ++ joinNames plan ++ ".")
          st.logs }
  | .stage3 plan =>
      let st2 := { st with simulationStep := 3 }
      match plan.agents[0]?, plan.agents[1]? with
      | some p0, some p1 =>
          { st2 with
            logs := addLog m1 "Registry"
              ("Lookup successful: Found specialized agents for " ++
                p0.specialty ++ " and " ++ p1.specialty ++ ".")
              st2.logs }
      | _, _ => st2
  | .stage4 =>
      { st with
        simulationStep := 4
        agents := updateAgentStatus "4" .working
          (updateAgentStatus "3" .working
            (updateAgentStatus "2" .working
              (updateAgentStatus "1" .communicating st.agents)))
        logs := addLog m1 "Mesh" "Task protocols distributed to agents." st.logs }
  | .stage5 plan =>
      let st2 :=
        { st with
          simulationStep := 5
          agents := updateAgentStatus "5" .working
            (updateAgentStatus "2" .communicating st.agents) }
      match plan.agents[0]? with
      | none => st2
      | some p0 =>
          let st3 :=
            { st2 with
              logs := addLog m1 p0.name (p0.task ++ " - Complete.") st2.logs }
          match plan.agents[1]? with
          | none => st3
          | some p1 =>
              { st3 with
                logs := addLog m2 p1.name (p1.task ++ " - In Progress.")
                  st3.logs }
  | .stage6 =>
      { st with
        simulationStep := 6
        agents := st.agents.map fun a => { a with status := .success }
        logs := addLog m1 "Monitor"
          "Workflow completed successfully. Results aggregated." st.logs
        isSimulating := false }

/-- The synchronous part of `startSimulation` (App.tsx:169-246) together with
the list of timers it registers, as (delay in ms, callback) pairs.  `mission`
is the current `userMission`; `plan` is what `await
callGeminiOrchestrator(userMission)` resolved to; `m1`/`m2` are the log
metadata for the two initial `addLog` calls.  The busy guard at App.tsx:170
returns before any mutation, so a busy state comes back unchanged with no
timer registered. -/
def startSimulationSync (mission : String) (plan : OrchestratorPlan)
    (m1 m2 : LogMeta) (st : AppState) : AppState × List (Nat × Callback) :=
  if st.isSimulating || st.isOrchestrating then (st, [])
  else
    let logs1 := addLog m1 "User"
      ("Request received: \"" ++ mission ++ "\"") []
    let logs2 := addLog m2 "Orchestrator LLM"
      "Consulting Gemini API for agent decomposition..." logs1
    let st1 :=
      { st with
        missionReport := none
        simulationStep := 1
        logs := logs2
        agents := applyPlan plan st.agents
        isOrchestrating := false
        isSimulating := true }
    (st1,
      [ (1500, .stage2 plan), (3500, .stage3 plan), (5500, .stage4),
        (8500, .stage5 plan), (11500, .stage6) ])

/-! ### The event system

A `Sys` is the component state plus the timers currently pending in the
browser event loop.  `stepSys` runs one event: a start click (with the plan
the remote call resolved to), a pending timer firing, or a reset click.
Firing removes the timer from the pending list; reset leaves the pending
list untouched because `resetSimulation` never calls `clearTimeout`. -/

structure Sys where
  st : AppState
  pending : List (Nat × Callback)
deriving DecidableEq, Repr

/-- The events the UI can deliver. -/
inductive Event where
  | start (mission : String) (plan : OrchestratorPlan) (m1 m2 : LogMeta)
  | fire (i : Nat) (m1 m2 : LogMeta)
  | reset (m : LogMeta)
deriving DecidableEq, Repr

/-- One event step. -/
def stepSys (e : Event) (s : Sys) : Sys :=
  match e with
  | .start mission plan m1 m2 =>
      let r := startSimulationSync mission plan m1 m2 s.st
      { st := r.1, pending := s.pending ++ r.2 }
  | .fire i m1 m2 =>
      match s.pending[i]? with
      | some t => { st := runCallback t.2 m1 m2 s.st, pending := s.pending.eraseIdx i }
      | none => s
  | .reset m => { st := resetSimulation m s.st, pending := s.pending }

/-- Run a list of events left to right. -/
def runEvents (es : List Event) (s : Sys) : Sys :=
  es.foldl (fun s e => stepSys e s) s

/-- The state right after mount: the `useEffect` at App.tsx:155-157 runs
`resetSimulation()` on the all-empty initial state of the hooks. -/
def initSys (m : LogMeta) : Sys :=
  { st := resetSimulation m
      { agents := [], logs := [], simulationStep := 0,
        isSimulating := false, isOrchestrating := false, missionReport := none },
    pending := [] }

/-! ### Specification predicates -/

/-- The structural invariant of the mesh (spec §3): the five agents sit at
stable positions with ids "1".."5" and the fixed role per id.  Five-ness is
implied: a list whose id projection is a five-element list has length 5. -/
def meshWellFormed (agents : List Agent) : Prop :=
  agents.map Agent.id = ["1", "2", "3", "4", "5"] ∧
  agents.map Agent.type =
    [.Orchestrator, .Specialist, .Specialist, .Worker, .Worker]

instance (agents : List Agent) : Decidable (meshWellFormed agents) := by
  unfold meshWellFormed
  infer_instance

/-- Relation between an agent record and its image under
`updateAgentStatus target status`: every field except `status` unchanged, and
`status` changed exactly when the id matches. -/
def statusOnlyChange (target : String) (status : AgentStatus) (a b : Agent) :
    Prop :=
  b.id = a.id ∧ b.name = a.name ∧ b.type = a.type ∧ b.x = a.x ∧ b.y = a.y ∧
  b.specialty = a.specialty ∧ b.currentTask = a.currentTask ∧
  (a.id = target → b.status = status) ∧ (a.id ≠ target → b.status = a.status)

/-- The failure conditions of `callGeminiOrchestrator` (App.tsx:62-79): a
missing credential, a thrown fetch, a non-success response, or a body chain
that throws. -/
def planCallFails (apiKey : String)
    (fetch : FetchResult (Option OrchestratorPlan)) : Prop :=
  apiKey = "" ∨ fetch = .networkError ∨
  (∃ p, fetch = .response false p) ∨ fetch = .response true none

/-- The conditions under which `callGeminiSummary` (App.tsx:101-117) throws:
a missing credential, a thrown fetch, or a body chain that throws.  Note that
a non-success response by itself is NOT here — the summary call never reads
`response.ok`. -/
def summaryCallFails (apiKey : String)
    (fetch : FetchResult (Option String)) : Prop :=
  apiKey = "" ∨ fetch = .networkError ∨ ∃ ok, fetch = .response ok none

/-- The event list of one undisturbed run: a start click followed by the five
timer callbacks firing in schedule order (each `fire 0` takes the earliest
still-pending timer; the five delays 1500 < 3500 < 5500 < 8500 < 11500 ms fire
in registration order).  `ms` supplies the browser log metadata, two per
event. -/
def fullRunEvents (mission : String) (plan : OrchestratorPlan)
    (ms : Nat → LogMeta) : List Event :=
  [ .start mission plan (ms 0) (ms 1),
    .fire 0 (ms 2) (ms 3), .fire 0 (ms 4) (ms 5), .fire 0 (ms 6) (ms 7),
    .fire 0 (ms 8) (ms 9), .fire 0 (ms 10) (ms 11) ]

/-- A mid-run state (stage 4, `isSimulating` set), used to instantiate the
busy-guard theorem on a concrete input. -/
def exampleBusyState : AppState :=
  { agents := updateAgentStatus "1" .working initialAgents
    logs := []
    simulationStep := 4
    isSimulating := true
    isOrchestrating := false
    missionReport := none }

/-! ### Helper lemmas -/

lemma set_of_getElem_some {α : Type} :
    ∀ (l : List α) (i : Nat) (a : α), l[i]? = some a → l.set i a = l := by
  intro l
  induction l with
  | nil => intro i a h; simp at h
  | cons x t ih =>
      intro i a h
      cases i with
      | zero =>
          simp only [List.getElem?_cons_zero, Option.some.injEq] at h
          simp [h]
      | succ n =>
          simp only [List.getElem?_cons_succ] at h
          simp [ih n a h]

lemma length_updateAgentStatus (target : String) (status : AgentStatus)
    (agents : List Agent) :
    (updateAgentStatus target status agents).length = agents.length := by
  simp [updateAgentStatus]

lemma length_updatePlanSlot (agents : List Agent) (idx : Nat) (p : PlanAgent) :
    (updatePlanSlot agents idx p).length = agents.length := by
  unfold updatePlanSlot
  split <;> simp

lemma length_applyPlan (plan : OrchestratorPlan) (agents : List Agent) :
    (applyPlan plan agents).length = agents.length := by
  unfold applyPlan
  split <;> split <;> split <;> simp [length_updatePlanSlot]

/-- A projection not touched by the plan-slot overwrite is preserved. -/
lemma updatePlanSlot_map {β : Type} (f : Agent → β)
    (hf : ∀ (a : Agent) (p : PlanAgent),
      f { a with name := p.name, specialty := p.specialty,
                 currentTask := some p.task } = f a)
    (agents : List Agent) (idx : Nat) (p : PlanAgent) :
    (updatePlanSlot agents idx p).map f = agents.map f := by
  unfold updatePlanSlot
  cases h : agents[idx]? with
  | none => rfl
  | some a =>
      rw [List.map_set, hf a p]
      apply set_of_getElem_some
      rw [List.getElem?_map, h]
      rfl

/-- Mapping a status-only (or otherwise id/role-preserving) function over the
agents keeps the mesh invariant. -/
lemma meshWellFormed_map (g : Agent → Agent)
    (hid : ∀ a, (g a).id = a.id) (hty : ∀ a, (g a).type = a.type)
    (agents : List Agent) (h : meshWellFormed agents) :
    meshWellFormed (agents.map g) := by
  obtain ⟨h1, h2⟩ := h
  constructor
  · rw [List.map_map]
    have hfun : (Agent.id ∘ g) = fun a => a.id := funext fun a => hid a
    rw [hfun]
    exact h1
  · rw [List.map_map]
    have hfun : (Agent.type ∘ g) = fun a => a.type := funext fun a => hty a
    rw [hfun]
    exact h2

lemma meshWellFormed_updateAgentStatus (target : String) (status : AgentStatus)
    (agents : List Agent) (h : meshWellFormed agents) :
    meshWellFormed (updateAgentStatus target status agents) := by
  apply meshWellFormed_map _ _ _ _ h <;>
    intro a <;> by_cases hid : a.id = target <;> simp [hid]

lemma meshWellFormed_updatePlanSlot (agents : List Agent) (idx : Nat)
    (p : PlanAgent) (h : meshWellFormed agents) :
    meshWellFormed (updatePlanSlot agents idx p) := by
  obtain ⟨h1, h2⟩ := h
  constructor
  · rw [updatePlanSlot_map Agent.id (fun a p => rfl)]
    exact h1
  · rw [updatePlanSlot_map Agent.type (fun a p => rfl)]
    exact h2

lemma meshWellFormed_applyPlan (plan : OrchestratorPlan) (agents : List Agent)
    (h : meshWellFormed agents) :
    meshWellFormed (applyPlan plan agents) := by
  unfold applyPlan
  split <;> split <;> split <;>
    (repeat apply meshWellFormed_updatePlanSlot) <;> exact h

lemma meshWellFormed_runCallback (cb : Callback) (m1 m2 : LogMeta)
    (st : AppState) (h : meshWellFormed st.agents) :
    meshWellFormed (runCallback cb m1 m2 st).agents := by
  cases cb with
  | stage2 plan =>
      dsimp only [runCallback]
      exact meshWellFormed_updateAgentStatus _ _ _ h
  | stage3 plan =>
      dsimp only [runCallback]
      split <;> exact h
  | stage4 =>
      dsimp only [runCallback]
      exact meshWellFormed_updateAgentStatus _ _ _
        (meshWellFormed_updateAgentStatus _ _ _
          (meshWellFormed_updateAgentStatus _ _ _
            (meshWellFormed_updateAgentStatus _ _ _ h)))
  | stage5 plan =>
      dsimp only [runCallback]
      split
      all_goals try split
      all_goals
        exact meshWellFormed_updateAgentStatus _ _ _
          (meshWellFormed_updateAgentStatus _ _ _ h)
  | stage6 =>
      dsimp only [runCallback]
      apply meshWellFormed_map _ _ _ _ h <;> intro a <;> rfl

lemma meshWellFormed_initialAgents : meshWellFormed initialAgents := by
  decide

lemma meshWellFormed_stepSys (e : Event) (s : Sys)
    (h : meshWellFormed s.st.agents) :
    meshWellFormed (stepSys e s).st.agents := by
  cases e with
  | start mission plan m1 m2 =>
      dsimp only [stepSys, startSimulationSync]
      split
      · exact h
      · exact meshWellFormed_applyPlan _ _ h
  | fire i m1 m2 =>
      dsimp only [stepSys]
      cases hp : s.pending[i]? with
      | none => simp only [hp]; exact h
      | some t =>
          simp only [hp]
          exact meshWellFormed_runCallback t.2 m1 m2 s.st h
  | reset m =>
      exact meshWellFormed_initialAgents

lemma addLog_length_le (meta : LogMeta) (source message : String)
    (logs : List LogEntry) : (addLog meta source message logs).length ≤ 8 := by
  simp only [addLog, List.length_take]
  omega

lemma fiveShape (l : List Agent) (h : l.length = 5) :
    ∃ a b c d e, l = [a, b, c, d, e] := by
  rcases l with _ | ⟨a, _ | ⟨b, _ | ⟨c, _ | ⟨d, _ | ⟨e, _ | ⟨f, t⟩⟩⟩⟩⟩⟩ <;>
    simp_all

lemma plan_fallback_of_fails (apiKey : String)
    (fetch : FetchResult (Option OrchestratorPlan))
    (h : planCallFails apiKey fetch) :
    callGeminiOrchestrator apiKey fetch = fallbackPlan := by
  unfold callGeminiOrchestrator
  by_cases hk : apiKey = ""
  · rw [if_pos hk]
  · rw [if_neg hk]
    rcases h with h | h | ⟨p, h⟩ | h
    · exact absurd h hk
    · subst h; rfl
    · subst h; rfl
    · subst h; rfl

lemma summary_fallback_of_fails (apiKey : String)
    (fetch : FetchResult (Option String)) (h : summaryCallFails apiKey fetch) :
    callGeminiSummary apiKey fetch = fallbackSummary := by
  unfold callGeminiSummary
  by_cases hk : apiKey = ""
  · rw [if_pos hk]
  · rw [if_neg hk]
    rcases h with h | h | ⟨ok, h⟩
    · exact absurd h hk
    · subst h; rfl
    · subst h; cases ok <;> rfl

/-! ### Claim theorems -/

/-- C3: every sequence of log appends applied to a state satisfying the ≤ 8
invariant keeps the invariant; moreover any single append yields at most 8
entries outright, with the new entry prepended at the front. -/
theorem log_cap_eight (ops : List (LogMeta × String × String))
    (logs : List LogEntry) (h : logs.length ≤ 8) :
    (ops.foldl (fun l o => addLog o.1 o.2.1 o.2.2 l) logs).length ≤ 8 ∧
    ∀ (meta : LogMeta) (source message : String) (l : List LogEntry),
      (addLog meta source message l).length ≤ 8 ∧
      (addLog meta source message l).head? = some
        { id := meta.id, source := source, message := message,
          timestamp := meta.timestamp } := by
  constructor
  · induction ops generalizing logs with
    | nil => exact h
    | cons o t ih => exact ih _ (addLog_length_le _ _ _ _)
  · intro meta source message l
    exact ⟨addLog_length_le _ _ _ _, rfl⟩

/-- Witness for `log_cap_eight` at a concrete input. -/
theorem log_cap_eight_witness :
    (([({ id := 7, timestamp := "08:00:00" }, "User", "hello")] :
        List (LogMeta × String × String)).foldl
      (fun l o => addLog o.1 o.2.1 o.2.2 l) ([] : List LogEntry)).length ≤ 8 ∧
    ∀ (meta : LogMeta) (source message : String) (l : List LogEntry),
      (addLog meta source message l).length ≤ 8 ∧
      (addLog meta source message l).head? = some
        { id := meta.id, source := source, message := message,
          timestamp := meta.timestamp } :=
  log_cap_eight [({ id := 7, timestamp := "08:00:00" }, "User", "hello")] []
    (by decide)

/-- C5: clicking start while a run is in flight (either busy flag set) leaves
the whole system — component state and pending timers — unchanged. -/
theorem start_busy_noop (mission : String) (plan : OrchestratorPlan)
    (m1 m2 : LogMeta) (s : Sys)
    (h : s.st.isSimulating = true ∨ s.st.isOrchestrating = true) :
    stepSys (.start mission plan m1 m2) s = s := by
  have hb : (s.st.isSimulating || s.st.isOrchestrating) = true := by
    rcases h with h | h <;> simp [h]
  simp [stepSys, startSimulationSync, hb]

/-- Witness for `start_busy_noop`: starting during stage 4 of a run changes
nothing. -/
theorem start_busy_noop_witness :
    stepSys
      (.start "Debug code" fallbackPlan { id := 9, timestamp := "08:00:01" }
        { id := 10, timestamp := "08:00:02" })
      { st := exampleBusyState, pending := [(11500, .stage6)] } =
    { st := exampleBusyState, pending := [(11500, .stage6)] } :=
  start_busy_noop "Debug code" fallbackPlan
    { id := 9, timestamp := "08:00:01" } { id := 10, timestamp := "08:00:02" }
    { st := exampleBusyState, pending := [(11500, .stage6)] }
    (Or.inl rfl)

/-- C8 counterexample: resetting the freshly-mounted stage-0 state leaves one
log entry, but its message is "Agentic Mesh Online. Enter a mission to
begin.", not "System Online...". -/
theorem reset_message_counterexample :
    ((resetSimulation { id := 1, timestamp := "09:00:01" }
        (initSys { id := 0, timestamp := "09:00:00" }).st).logs.map
      LogEntry.message =
      ["Agentic Mesh Online. Enter a mission to begin."]) ∧
    "Agentic Mesh Online. Enter a mission to begin." ≠ "System Online..." := by
  exact ⟨rfl, by decide⟩

/-- C8 amended: resetting a stage-0 state leaves exactly one log entry with
source "System" and message "Agentic Mesh Online. Enter a mission to begin.",
and all five agents idle. -/
theorem reset_initial_single_log (m : LogMeta) (st : AppState)
    (_h0 : st.simulationStep = 0) :
    ((resetSimulation m st).logs.map fun e => (e.source, e.message)) =
      [("System", "Agentic Mesh Online. Enter a mission to begin.")] ∧
    (resetSimulation m st).agents.length = 5 ∧
    ∀ a ∈ (resetSimulation m st).agents, a.status = .idle := by
  refine ⟨rfl, rfl, ?_⟩
  intro a ha
  simp only [resetSimulation, initialAgents, List.mem_cons,
    List.not_mem_nil, or_false] at ha
  rcases ha with h | h | h | h | h <;> subst h <;> rfl

/-- Witness for `reset_initial_single_log`. -/
theorem reset_initial_single_log_witness :
    ((resetSimulation { id := 2, timestamp := "09:00:02" }
        (initSys { id := 0, timestamp := "09:00:00" }).st).logs.map
      fun e => (e.source, e.message)) =
      [("System", "Agentic Mesh Online. Enter a mission to begin.")] ∧
    (resetSimulation { id := 2, timestamp := "09:00:02" }
        (initSys { id := 0, timestamp := "09:00:00" }).st).agents.length = 5 ∧
    ∀ a ∈ (resetSimulation { id := 2, timestamp := "09:00:02" }
        (initSys { id := 0, timestamp := "09:00:00" }).st).agents,
      a.status = .idle :=
  reset_initial_single_log { id := 2, timestamp := "09:00:02" }
    (initSys { id := 0, timestamp := "09:00:00" }).st rfl

/-- C9 counterexample: the summary call never checks `response.ok`, so a
non-success response whose body still carries the text path is returned
verbatim instead of the fallback sentence — the policy is not identical to
the plan provider's. -/
theorem summary_ok_counterexample :
    callGeminiSummary "key" (.response false (some "Server error page")) =
      "Server error page" ∧
    "Server error page" ≠ fallbackSummary := by
  exact ⟨rfl, by decide⟩

/-- C9 amended: whenever the summary call throws — missing credential,
transport failure, or a body from which the expected text field cannot be
read (which is how error-status responses manifest in practice) — the one
fixed fallback sentence is returned and no error propagates; but the HTTP
success flag itself is never consulted, so any response carrying the text
field is returned verbatim. -/
theorem summary_failure_fallback (apiKey : String)
    (fetch : FetchResult (Option String)) :
    (summaryCallFails apiKey fetch →
      callGeminiSummary apiKey fetch = fallbackSummary) ∧
    (∀ (ok : Bool) (text : String), apiKey ≠ "" →
      fetch = .response ok (some text) →
      callGeminiSummary apiKey fetch = text) := by
  constructor
  · exact summary_fallback_of_fails apiKey fetch
  · intro ok text hk hf
    subst hf
    unfold callGeminiSummary
    rw [if_neg hk]

/-- Witness for `summary_failure_fallback`. -/
theorem summary_failure_fallback_witness :
    (summaryCallFails "" .networkError →
      callGeminiSummary "" .networkError = fallbackSummary) ∧
    (∀ (ok : Bool) (text : String), ("" : String) ≠ "" →
      (.networkError : FetchResult (Option String)) = .response ok (some text) →
      callGeminiSummary "" .networkError = text) :=
  summary_failure_fallback "" .networkError

/-- C10: the single-agent status update touches only the `status` field of
the agents whose id matches; every other field, the list length and the order
are untouched, and a target id that matches no agent leaves the list
unchanged. -/
theorem updateAgentStatus_frame (agents : List Agent) (target : String)
    (status : AgentStatus) :
    (updateAgentStatus target status agents).length = agents.length ∧
    (∀ (i : Nat) (a : Agent), agents[i]? = some a →
      ∃ b, (updateAgentStatus target status agents)[i]? = some b ∧
        statusOnlyChange target status a b) ∧
    ((∀ a ∈ agents, a.id ≠ target) →
      updateAgentStatus target status agents = agents) := by
  refine ⟨by simp [updateAgentStatus], ?_, ?_⟩
  · intro i a h
    refine ⟨if a.id = target then { a with status := status } else a, ?_, ?_⟩
    · simp [updateAgentStatus, List.getElem?_map, h]
    · by_cases hid : a.id = target <;>
        simp [statusOnlyChange, hid]
  · intro h
    unfold updateAgentStatus
    have hcongr : ∀ a ∈ agents,
        (if a.id = target then { a with status := status } else a) = id a := by
      intro a ha
      simp [h a ha]
    rw [List.map_congr_left hcongr, List.map_id]

/-- C2: reset (the initialization) establishes the mesh invariant — exactly
five agents, ids "1".."5" at stable positions, id "1" an Orchestrator, ids
"2"/"3" Specialists, ids "4"/"5" Workers — and every event (a start with its
plan mapping, a timer callback with its status and stage mutations, a reset)
preserves it. -/
theorem mesh_invariant_preserved (e : Event) (s : Sys) (m : LogMeta)
    (st : AppState) (h : meshWellFormed s.st.agents) :
    meshWellFormed (stepSys e s).st.agents ∧
    (stepSys e s).st.agents.length = 5 ∧
    meshWellFormed (resetSimulation m st).agents := by
  have h2 := meshWellFormed_stepSys e s h
  refine ⟨h2, ?_, meshWellFormed_initialAgents⟩
  have hlen := congrArg List.length h2.1
  simpa using hlen

/-- Witness for `mesh_invariant_preserved`: the stage-4 timer firing on the
freshly-mounted system. -/
theorem mesh_invariant_preserved_witness :
    meshWellFormed
      (stepSys (.fire 0 { id := 3, timestamp := "09:00:03" }
          { id := 4, timestamp := "09:00:04" })
        { st := exampleBusyState, pending := [(5500, .stage4)] }).st.agents ∧
    (stepSys (.fire 0 { id := 3, timestamp := "09:00:03" }
          { id := 4, timestamp := "09:00:04" })
        { st := exampleBusyState, pending := [(5500, .stage4)] }).st.agents.length = 5 ∧
    meshWellFormed
      (resetSimulation { id := 5, timestamp := "09:00:05" }
        exampleBusyState).agents :=
  mesh_invariant_preserved
    (.fire 0 { id := 3, timestamp := "09:00:03" }
      { id := 4, timestamp := "09:00:04" })
    { st := exampleBusyState, pending := [(5500, .stage4)] }
    { id := 5, timestamp := "09:00:05" } exampleBusyState (by decide)

/-- C4: under any failure of the plan call — missing credential, thrown
fetch, non-success response, or a body chain that throws — the provider
returns the fixed fallback triple, and mapping it over a five-agent list
gives slots 1-3 (the agents with ids "2", "3", "4") exactly the
Logic Bot / Resource Bot / Review Bot name, specialty and task values. -/
theorem plan_failure_fallback (apiKey : String)
    (fetch : FetchResult (Option OrchestratorPlan)) (agents : List Agent)
    (hfail : planCallFails apiKey fetch) (h5 : agents.length = 5) :
    callGeminiOrchestrator apiKey fetch = fallbackPlan ∧
    ∃ a2 a3 a4,
      (applyPlan (callGeminiOrchestrator apiKey fetch) agents)[1]? = some a2 ∧
      (applyPlan (callGeminiOrchestrator apiKey fetch) agents)[2]? = some a3 ∧
      (applyPlan (callGeminiOrchestrator apiKey fetch) agents)[3]? = some a4 ∧
      a2.name = "Logic Bot" ∧ a2.specialty = "Planning" ∧
      a2.currentTask = some "Analyzing requirements" ∧
      a3.name = "Resource Bot" ∧ a3.specialty = "Logistics" ∧
      a3.currentTask = some "Gathering resources" ∧
      a4.name = "Review Bot" ∧ a4.specialty = "Quality Control" ∧
      a4.currentTask = some "Verifying output" := by
  have hfb := plan_fallback_of_fails apiKey fetch hfail
  refine ⟨hfb, ?_⟩
  rw [hfb]
  obtain ⟨a, b, c, d, e, rfl⟩ := fiveShape agents h5
  exact ⟨_, _, _, rfl, rfl, rfl, rfl, rfl, rfl, rfl, rfl, rfl, rfl, rfl, rfl⟩

/-- Witness for `plan_failure_fallback`: no credential configured. -/
theorem plan_failure_fallback_witness :
    callGeminiOrchestrator "" .networkError = fallbackPlan ∧
    ∃ a2 a3 a4,
      (applyPlan (callGeminiOrchestrator "" .networkError) initialAgents)[1]? =
        some a2 ∧
      (applyPlan (callGeminiOrchestrator "" .networkError) initialAgents)[2]? =
        some a3 ∧
      (applyPlan (callGeminiOrchestrator "" .networkError) initialAgents)[3]? =
        some a4 ∧
      a2.name = "Logic Bot" ∧ a2.specialty = "Planning" ∧
      a2.currentTask = some "Analyzing requirements" ∧
      a3.name = "Resource Bot" ∧ a3.specialty = "Logistics" ∧
      a3.currentTask = some "Gathering resources" ∧
      a4.name = "Review Bot" ∧ a4.specialty = "Quality Control" ∧
      a4.currentTask = some "Verifying output" :=
  plan_failure_fallback "" .networkError initialAgents (Or.inl rfl) (by decide)

/-- C6 counterexample: a successfully parsed response containing a single
record is returned as-is, so the provider's output is not always exactly
three records. -/
theorem plan_shape_counterexample :
    (callGeminiOrchestrator "key"
        (.response true (some
          { agents :=
              [{ name := "Solo Bot", specialty := "All", task := "Everything" }] }))) =
      { agents :=
          [{ name := "Solo Bot", specialty := "All", task := "Everything" }] } ∧
    (callGeminiOrchestrator "key"
        (.response true (some
          { agents :=
              [{ name := "Solo Bot", specialty := "All", task := "Everything" }] }))).agents.length ≠ 3 := by
  exact ⟨rfl, by decide⟩

/-- C6 amended: on any failure the provider returns the entire fallback
triple (exactly three records); on a successfully parsed response it returns
the parsed value as-is, with no shape validation, so the output has three
records only when the remote response happened to contain three. -/
theorem plan_output_shape (apiKey : String)
    (fetch : FetchResult (Option OrchestratorPlan)) :
    (planCallFails apiKey fetch →
      callGeminiOrchestrator apiKey fetch = fallbackPlan ∧
      (callGeminiOrchestrator apiKey fetch).agents.length = 3) ∧
    (∀ plan, apiKey ≠ "" → fetch = .response true (some plan) →
      callGeminiOrchestrator apiKey fetch = plan) := by
  constructor
  · intro h
    have hfb := plan_fallback_of_fails apiKey fetch h
    exact ⟨hfb, by rw [hfb]; rfl⟩
  · intro plan hk hf
    subst hf
    unfold callGeminiOrchestrator
    rw [if_neg hk]
    rfl

/-- C7: reset restores the agent template and stage 0 but never calls
`clearTimeout`, so the pending-timer list survives every reset; concretely,
starting a run on the freshly-mounted system, resetting, and letting the
first abandoned timer fire mutates the stage (and the agents and logs) away
from the just-reset state. -/
theorem reset_keeps_pending_timers :
    (∀ (m : LogMeta) (st : AppState),
      (resetSimulation m st).agents = initialAgents ∧
      (resetSimulation m st).simulationStep = 0) ∧
    (∀ (m : LogMeta) (s : Sys), (stepSys (.reset m) s).pending = s.pending) ∧
    (stepSys
        (.fire 0 { id := 4, timestamp := "10:00:04" }
          { id := 5, timestamp := "10:00:05" })
        (stepSys (.reset { id := 3, timestamp := "10:00:03" })
          (stepSys
            (.start "Plan a 3-day trip to Tokyo" fallbackPlan
              { id := 1, timestamp := "10:00:01" }
              { id := 2, timestamp := "10:00:02" })
            (initSys { id := 0, timestamp := "10:00:00" })))).st ≠
      (stepSys (.reset { id := 3, timestamp := "10:00:03" })
        (stepSys
          (.start "Plan a 3-day trip to Tokyo" fallbackPlan
            { id := 1, timestamp := "10:00:01" }
            { id := 2, timestamp := "10:00:02" })
          (initSys { id := 0, timestamp := "10:00:00" }))).st ∧
    (stepSys (.reset { id := 3, timestamp := "10:00:03" })
        (stepSys
          (.start "Plan a 3-day trip to Tokyo" fallbackPlan
            { id := 1, timestamp := "10:00:01" }
            { id := 2, timestamp := "10:00:02" })
          (initSys { id := 0, timestamp := "10:00:00" }))).pending.length = 5 ∧
    (stepSys
        (.fire 0 { id := 4, timestamp := "10:00:04" }
          { id := 5, timestamp := "10:00:05" })
        (stepSys (.reset { id := 3, timestamp := "10:00:03" })
          (stepSys
            (.start "Plan a 3-day trip to Tokyo" fallbackPlan
              { id := 1, timestamp := "10:00:01" }
              { id := 2, timestamp := "10:00:02" })
            (initSys { id := 0, timestamp := "10:00:00" })))).st.simulationStep
      = 2 := by
  refine ⟨fun m st => ⟨rfl, rfl⟩, fun m s => rfl, ?_, by decide, by decide⟩
  decide

/-- Witness for `plan_output_shape`. -/
theorem plan_output_shape_witness :
    (planCallFails "" .networkError →
      callGeminiOrchestrator "" .networkError = fallbackPlan ∧
      (callGeminiOrchestrator "" .networkError).agents.length = 3) ∧
    (∀ plan, ("" : String) ≠ "" →
      (.networkError : FetchResult (Option OrchestratorPlan)) =
        .response true (some plan) →
      callGeminiOrchestrator "" .networkError = plan) :=
  plan_output_shape "" .networkError

/-- C1: for every mission and every plan the remote call resolved to, a run
started on an idle five-agent system and carried through its five timers ends
at stage 6 with all five agents in status `success`; moreover the stage-6
callback itself produces only `success` statuses from any state whatsoever. -/
theorem run_completes_all_success (mission : String) (plan : OrchestratorPlan)
    (ms : Nat → LogMeta) (s : Sys)
    (hsim : s.st.isSimulating = false) (horc : s.st.isOrchestrating = false)
    (hpend : s.pending = []) (h5 : s.st.agents.length = 5) :
    ((runEvents (fullRunEvents mission plan ms) s).st.simulationStep = 6 ∧
     (runEvents (fullRunEvents mission plan ms) s).st.agents.length = 5 ∧
     (∀ a ∈ (runEvents (fullRunEvents mission plan ms) s).st.agents,
        a.status = .success) ∧
     (runEvents (fullRunEvents mission plan ms) s).st.isSimulating = false) ∧
    ∀ (m1 m2 : LogMeta) (st : AppState),
      ∀ a ∈ (runCallback .stage6 m1 m2 st).agents, a.status = .success := by
  constructor
  · obtain ⟨⟨ags, lgs, stp, sim, orch, rep⟩, pend⟩ := s
    dsimp only at hsim horc hpend h5
    subst hsim horc hpend
    rcases plan with ⟨pa⟩
    rcases pa with _ | ⟨p0, _ | ⟨p1, pa⟩⟩ <;>
      refine ⟨?_, ?_, ?_, ?_⟩ <;>
        simp [runEvents, fullRunEvents, stepSys, startSimulationSync,
          runCallback, length_updateAgentStatus, length_applyPlan, h5,
          List.mem_map]
  · intro m1 m2 st a ha
    dsimp only [runCallback] at ha
    rw [List.mem_map] at ha
    obtain ⟨b, _, rfl⟩ := ha
    rfl

/-- Witness for `run_completes_all_success`: the spec §8 scenario mission run
on the freshly-mounted system with the fallback plan. -/
theorem run_completes_all_success_witness :
    ((runEvents
        (fullRunEvents "Plan a 3-day trip to Tokyo" fallbackPlan
          (fun n => { id := n, timestamp := "10:00:00" }))
        (initSys { id := 100, timestamp := "10:00:00" })).st.simulationStep = 6 ∧
     (runEvents
        (fullRunEvents "Plan a 3-day trip to Tokyo" fallbackPlan
          (fun n => { id := n, timestamp := "10:00:00" }))
        (initSys { id := 100, timestamp := "10:00:00" })).st.agents.length = 5 ∧
     (∀ a ∈ (runEvents
        (fullRunEvents "Plan a 3-day trip to Tokyo" fallbackPlan
          (fun n => { id := n, timestamp := "10:00:00" }))
        (initSys { id := 100, timestamp := "10:00:00" })).st.agents,
        a.status = .success) ∧
     (runEvents
        (fullRunEvents "Plan a 3-day trip to Tokyo" fallbackPlan
          (fun n => { id := n, timestamp := "10:00:00" }))
        (initSys { id := 100, timestamp := "10:00:00" })).st.isSimulating = false) ∧
    ∀ (m1 m2 : LogMeta) (st : AppState),
      ∀ a ∈ (runCallback .stage6 m1 m2 st).agents, a.status = .success :=
  run_completes_all_success "Plan a 3-day trip to Tokyo" fallbackPlan
    (fun n => { id := n, timestamp := "10:00:00" })
    (initSys { id := 100, timestamp := "10:00:00" }) rfl rfl rfl (by decide)

/-- Witness for `updateAgentStatus_frame`. -/
theorem updateAgentStatus_frame_witness :
    (updateAgentStatus "2" .working initialAgents).length =
      initialAgents.length ∧
    (∀ (i : Nat) (a : Agent), initialAgents[i]? = some a →
      ∃ b, (updateAgentStatus "2" .working initialAgents)[i]? = some b ∧
        statusOnlyChange "2" .working a b) ∧
    ((∀ a ∈ initialAgents, a.id ≠ "2") →
      updateAgentStatus "2" .working initialAgents = initialAgents) :=
  updateAgentStatus_frame initialAgents "2" .working
